import Mathlib

/-!
Shallow embedding of `src/server.js` (expense-tracker backend).

The server is a set of stateless Express handlers over a Postgres store with
three tables (`users`, `transactions`, `new_loans`).  We model the store as
lists of rows plus fresh-id counters, each parameterized SQL statement as the
corresponding list operation, and each handler as a pure function from the
request's data and the store to an HTTP response paired with the new store.
The bcrypt and jsonwebtoken packages are external collaborators; they are
modelled as injective pairing functions so that hash/compare and sign/verify
round-trip exactly as the real primitives do, while the handlers treat them
as opaque.  Time is an explicit `now : Nat` parameter (seconds).
-/

set_option linter.unusedVariables false

/-! ### External crypto collaborators (bcryptjs, jsonwebtoken) -/

/-- Model of a bcrypt hash string: it records the salt it was built from and
the hashed input, since real bcrypt hashes embed their salt and
`bcrypt.compare` recomputes the hash from that embedded salt. -/
structure BcryptHash where
  salt : String
  input : String
deriving DecidableEq

namespace bcrypt

/-- Model of `bcrypt.genSalt(rounds)`: a salt recording the cost factor. -/
def genSalt (rounds : Nat) : String := "$2a$" ++ toString rounds ++ "$modelsalt"

/-- Model of `bcrypt.hash(password, salt)`. -/
def hash (password : String) (salt : String) : BcryptHash := ⟨salt, password⟩

/-- Model of `bcrypt.compare(password, hash)`: recompute with the hash's
embedded salt and compare. -/
def compare (password : String) (h : BcryptHash) : Bool :=
  hash password h.salt == h

end bcrypt

/-- Decoded JWT payload; the server only ever signs `\x7b id \x7d`. -/
structure JwtPayload where
  id : Nat
deriving DecidableEq

/-- Model of a signed JWT: payload, signing secret, issued-at and expiry. -/
structure JwtToken where
  payload : JwtPayload
  secret : String
  iat : Nat
  exp : Nat
deriving DecidableEq

namespace jwt

/-- Seconds in the `'1d'` expiresIn option. -/
def oneDay : Nat := 86400

/-- Model of `jwt.sign(payload, secret, \x7b expiresIn \x7d)`. -/
def sign (payload : JwtPayload) (secret : String) (expiresInSecs : Nat) (now : Nat) :
    JwtToken :=
  { payload := payload, secret := secret, iat := now, exp := now + expiresInSecs }

/-- Model of `jwt.verify(token, secret, cb)`: yields the decoded payload when
the signature matches the secret and the token is not expired, and an error
(`none`) otherwise. -/
def verify (t : JwtToken) (secret : String) (now : Nat) : Option JwtPayload :=
  if t.secret = secret ∧ now < t.exp then some t.payload else none

end jwt

/-! ### Data model: the three tables of the store -/

/-- Row of the `users` table. -/
structure UserRow where
  user_id : Nat
  name : String
  email : String
  password : BcryptHash
deriving DecidableEq

/-- Row of the `transactions` table.  `category`, `amount`, `description`
come from untyped JSON bodies, so a missing body field is stored as NULL;
we model those columns as `Option`.  `date` is the row's transaction date. -/
structure TxRow where
  transaction_id : Nat
  user_id : Nat
  «type» : String
  category : Option String
  amount : Option Int
  description : Option String
  date : Nat
deriving DecidableEq

/-- Row of the `new_loans` table. -/
structure LoanRow where
  loan_id : Nat
  user_id : Nat
  person_name : String
  «type» : String
  amount : Int
  description : String
  status : Option String
  due_date : Option String
  created_at : Nat
  updated_at : Nat
deriving DecidableEq

/-- The relational store: the three tables plus serial-id counters. -/
structure DB where
  users : List UserRow
  transactions : List TxRow
  loans : List LoanRow
  nextUserId : Nat
  nextTxId : Nat
  nextLoanId : Nat
deriving DecidableEq

/-! ### HTTP responses -/

/-- JSON response bodies the handlers produce. -/
inductive RespBody where
  | token (t : JwtToken)
  | tokenName (t : JwtToken) (name : String)
  | error (msg : String)
  | message (msg : String)
  | txRow (r : TxRow)
  | txRows (rs : List TxRow)
  | loanRow (r : LoanRow)
  | loanRows (rs : List LoanRow)
deriving DecidableEq

/-- An HTTP response: status code and JSON body.  `res.json(x)` with no
explicit status is status 200. -/
structure Response where
  status : Nat
  body : RespBody
deriving DecidableEq

/-! ### Authentication middleware (`authenticateToken`) -/

/-- One whitespace-separated word of the `authorization` header: either an
arbitrary non-JWT string (such as `Bearer`, or garbage) or a serialized JWT. -/
inductive AuthWord where
  | raw (s : String)
  | tok (t : JwtToken)
deriving DecidableEq

/-- JS truthiness of a header word: the empty string is falsy, every other
string (a serialized JWT is never empty) is truthy. -/
def AuthWord.truthy : AuthWord → Bool
  | .raw s => s ≠ ""
  | .tok _ => true

/-- Verification of a header word: a raw non-JWT string always fails
`jwt.verify`; a JWT is verified against the secret and clock. -/
def AuthWord.verify (w : AuthWord) (secret : String) (now : Nat) : Option JwtPayload :=
  match w with
  | .raw _ => none
  | .tok t => jwt.verify t secret now

/-- Model of `authHeader && authHeader.split(' ')[1]`: the header, when
present, is given as its list of whitespace-separated words, and the token
is the word at index 1. -/
def jsToken (authHeader : Option (List AuthWord)) : Option AuthWord :=
  authHeader.bind fun ws => ws[1]?

/-- Truthiness of the extracted token value (`undefined` is falsy). -/
def jsTokenTruthy (authHeader : Option (List AuthWord)) : Bool :=
  match jsToken authHeader with
  | none => false
  | some w => w.truthy

/-- Outcome of the `authenticateToken` middleware. -/
inductive AuthResult where
  | missingTok
  | invalidTok
  | authed (user : JwtPayload)
deriving DecidableEq

/-- The `authenticateToken` middleware: 401 when no truthy token was
extracted, 403 when verification fails, otherwise the decoded payload. -/
def authenticateToken (secret : String) (now : Nat)
    (authHeader : Option (List AuthWord)) : AuthResult :=
  match jsToken authHeader with
  | none => .missingTok
  | some w =>
    if w.truthy = false then .missingTok
    else
      match w.verify secret now with
      | none => .invalidTok
      | some user => .authed user

/-- Wiring of the middleware in front of a protected handler: on 401/403 the
middleware responds itself and the handler never runs; on success the decoded
payload is attached (passed to the handler) and the handler runs. -/
def runProtected (secret : String) (now : Nat) (authHeader : Option (List AuthWord))
    (handler : JwtPayload → DB → Response × DB) (db : DB) : Response × DB :=
  match authenticateToken secret now authHeader with
  | .missingTok => (⟨401, .error "Access denied"⟩, db)
  | .invalidTok => (⟨403, .error "Invalid token"⟩, db)
  | .authed user => handler user db

/-! ### Auth handlers: POST /api/register, POST /api/login -/

/-- Handler of `POST /api/register` (try-block body).  Checks
`SELECT * FROM users WHERE email = $1`, rejects duplicates with 400,
otherwise hashes the password with a cost-10 salt, inserts the user row and
signs a 1-day token for the new row's `user_id`. -/
def register (db : DB) (secret : String) (now : Nat)
    (name email password : String) : Response × DB :=
  let userExists := db.users.filter fun u => u.email == email
  if userExists.length > 0 then
    (⟨400, .error "User already exists"⟩, db)
  else
    let salt := bcrypt.genSalt 10
    let hashedPassword := bcrypt.hash password salt
    let newUser : UserRow :=
      { user_id := db.nextUserId, name := name, email := email,
        password := hashedPassword }
    let db' := { db with users := db.users ++ [newUser],
                         nextUserId := db.nextUserId + 1 }
    let token := jwt.sign ⟨newUser.user_id⟩ secret jwt.oneDay now
    (⟨200, .token token⟩, db')

/-- Handler of `POST /api/login` (try-block body).  Looks the user up by
email, rejects an unknown email and a failed bcrypt comparison with 400,
otherwise signs a 1-day token and returns it with the user's name. -/
def login (db : DB) (secret : String) (now : Nat)
    (email password : String) : Response × DB :=
  match db.users.filter (fun u => u.email == email) with
  | [] => (⟨400, .error "User does not exist"⟩, db)
  | u :: _ =>
    if bcrypt.compare password u.password = false then
      (⟨400, .error "Invalid password"⟩, db)
    else
      let token := jwt.sign ⟨u.user_id⟩ secret jwt.oneDay now
      (⟨200, .tokenName token u.name⟩, db)

/-! ### Expense handlers -/

/-- Match of `WHERE user_id = $1 AND type = $2` with `$2 = 'expense'`. -/
def expenseOf (uid : Nat) (r : TxRow) : Bool :=
  r.user_id == uid && r.«type» == "expense"

/-- Order of `ORDER BY date DESC` on transactions. -/
def dateDesc (a b : TxRow) : Prop := b.date ≤ a.date

instance : DecidableRel dateDesc := fun a b => Nat.decLe b.date a.date

instance : IsTotal TxRow dateDesc := ⟨fun a b => Nat.le_total b.date a.date⟩

instance : IsTrans TxRow dateDesc := ⟨fun _ _ _ h1 h2 => Nat.le_trans h2 h1⟩

/-- Handler of `GET /api/expenses` (try-block body):
`SELECT * FROM transactions WHERE user_id = $1 AND type = 'expense'
ORDER BY date DESC`. -/
def getExpenses (db : DB) (uid : Nat) : Response × DB :=
  let rows := List.insertionSort dateDesc (db.transactions.filter (expenseOf uid))
  (⟨200, .txRows rows⟩, db)

/-- Body of `POST /api/expenses` and `PUT /api/expenses/:id`; each field may
be absent from the JSON body (then `undefined`, stored as NULL). -/
structure ExpenseBody where
  category : Option String
  amount : Option Int
  description : Option String
deriving DecidableEq

/-- Handler of `POST /api/expenses` (try-block body): inserts one row
stamped with the caller's id and type `'expense'` and returns it. -/
def createExpense (db : DB) (uid : Nat) (now : Nat) (b : ExpenseBody) :
    Response × DB :=
  let newExpense : TxRow :=
    { transaction_id := db.nextTxId, user_id := uid, «type» := "expense",
      category := b.category, amount := b.amount,
      description := b.description, date := now }
  let db' := { db with transactions := db.transactions ++ [newExpense],
                       nextTxId := db.nextTxId + 1 }
  (⟨200, .txRow newExpense⟩, db')

/-- Match of `WHERE transaction_id = $1 AND user_id = $2`. -/
def txKeyMatch (id uid : Nat) (r : TxRow) : Bool :=
  r.transaction_id == id && r.user_id == uid

/-- Handler of `DELETE /api/expenses/:id` (try-block body):
`DELETE FROM transactions WHERE transaction_id = $1 AND user_id = $2
RETURNING *`; 404 when no row was deleted. -/
def deleteExpense (db : DB) (uid id : Nat) : Response × DB :=
  let deleted := db.transactions.filter (txKeyMatch id uid)
  let db' := { db with
               transactions := db.transactions.filter fun r => !txKeyMatch id uid r }
  match deleted with
  | [] => (⟨404, .error "Transaction not found"⟩, db')
  | _ :: _ => (⟨200, .message "Transaction deleted successfully"⟩, db')

/-- Effect of `SET category = $1, amount = $2, description = $3` on one row. -/
def txOverwrite (b : ExpenseBody) (r : TxRow) : TxRow :=
  { r with category := b.category, amount := b.amount, description := b.description }

/-- Handler of `PUT /api/expenses/:id` (try-block body): unconditionally
overwrites the three columns of every row matching
`transaction_id = $4 AND user_id = $5`, returns the first updated row, and
404 when no row matched. -/
def updateExpense (db : DB) (uid id : Nat) (b : ExpenseBody) : Response × DB :=
  let updated := (db.transactions.filter (txKeyMatch id uid)).map (txOverwrite b)
  let db' := { db with
               transactions := db.transactions.map fun r =>
                 if txKeyMatch id uid r then txOverwrite b r else r }
  match updated with
  | [] => (⟨404, .error "Transaction not found"⟩, db')
  | r :: _ => (⟨200, .txRow r⟩, db')

/-! ### Loan handlers -/

/-- Order of `ORDER BY created_at DESC` on loans. -/
def createdDesc (a b : LoanRow) : Prop := b.created_at ≤ a.created_at

instance : DecidableRel createdDesc := fun a b => Nat.decLe b.created_at a.created_at

/-- Handler of `GET /api/loans` (try-block body). -/
def getLoans (db : DB) (uid : Nat) : Response × DB :=
  let rows := List.insertionSort createdDesc
    (db.loans.filter fun r => r.user_id == uid)
  (⟨200, .loanRows rows⟩, db)

/-- JS value bound to `amount` in a loan body: absent/null (falsy), a
non-numeric value (`isNaN` holds, also falsy), or a number. -/
inductive JsAmount where
  | missing
  | nan
  | num (n : Int)
deriving DecidableEq

/-- JS falsiness of the amount value (`!amount`): `undefined`, `NaN` and `0`
are falsy. -/
def JsAmount.falsy : JsAmount → Bool
  | .missing => true
  | .nan => true
  | .num n => n == 0

/-- Model of `isNaN(amount)`. -/
def JsAmount.isNaNv : JsAmount → Bool
  | .nan => true
  | _ => false

/-- Model of `amount <= 0` (false on `NaN` and `undefined`, as in JS). -/
def JsAmount.leZero : JsAmount → Bool
  | .num n => n ≤ 0
  | _ => false

/-- The source's amount guard `!amount || isNaN(amount) || amount <= 0`. -/
def JsAmount.invalid (a : JsAmount) : Bool := a.falsy || a.isNaNv || a.leZero

/-- Numeric value of a validated amount. -/
def JsAmount.val : JsAmount → Int
  | .num n => n
  | _ => 0

/-- Model of `String.prototype.trim()`: drop ASCII whitespace from both
ends of the string. -/
def jsTrim (s : String) : String :=
  ⟨((s.data.dropWhile Char.isWhitespace).reverse.dropWhile Char.isWhitespace).reverse⟩

/-- Model of `!field?.trim()`: true when the field is absent/null or trims
to the empty string. -/
def blankOpt : Option String → Bool
  | none => true
  | some s => jsTrim s == ""

/-- Body of `POST /api/loans` and `PUT /api/loans/:id`; `status` is only
read by the update handler. -/
structure LoanBody where
  person_name : Option String
  «type» : Option String
  amount : JsAmount
  description : Option String
  status : Option String
  due_date : Option String
deriving DecidableEq

/-- The four field checks of the loan handlers all pass. -/
def loanBodyValid (b : LoanBody) : Prop :=
  blankOpt b.person_name = false ∧ blankOpt b.«type» = false ∧
  b.amount.invalid = false ∧ blankOpt b.description = false

instance (b : LoanBody) : Decidable (loanBodyValid b) := by
  unfold loanBodyValid; infer_instance

/-- Handler of `POST /api/loans` (try-block body): field-by-field
validation in source order, then
`INSERT INTO new_loans (user_id, person_name, type, amount, description,
due_date) VALUES ... RETURNING *` with trimmed text fields, status 201. -/
def createLoan (db : DB) (uid : Nat) (now : Nat) (b : LoanBody) : Response × DB :=
  if blankOpt b.person_name then (⟨400, .error "Person name is required"⟩, db)
  else if blankOpt b.«type» then (⟨400, .error "Type is required"⟩, db)
  else if b.amount.invalid then (⟨400, .error "Valid amount is required"⟩, db)
  else if blankOpt b.description then (⟨400, .error "Description is required"⟩, db)
  else
    let newLoan : LoanRow :=
      { loan_id := db.nextLoanId, user_id := uid,
        person_name := jsTrim (b.person_name.getD ""),
        «type» := jsTrim (b.«type».getD ""),
        amount := b.amount.val,
        description := jsTrim (b.description.getD ""),
        status := none, due_date := b.due_date,
        created_at := now, updated_at := now }
    let db' := { db with loans := db.loans ++ [newLoan],
                         nextLoanId := db.nextLoanId + 1 }
    (⟨201, .loanRow newLoan⟩, db')

/-- Match of `WHERE loan_id = $7 AND user_id = $8`. -/
def loanKeyMatch (id uid : Nat) (r : LoanRow) : Bool :=
  r.loan_id == id && r.user_id == uid

/-- Effect of the `UPDATE new_loans SET ...` column list on one row,
including `updated_at = CURRENT_TIMESTAMP`. -/
def loanOverwrite (b : LoanBody) (now : Nat) (r : LoanRow) : LoanRow :=
  { r with person_name := jsTrim (b.person_name.getD ""),
           «type» := jsTrim (b.«type».getD ""),
           amount := b.amount.val,
           description := jsTrim (b.description.getD ""),
           status := b.status, due_date := b.due_date,
           updated_at := now }

/-- Handler of `PUT /api/loans/:id` (try-block body): the same validation
as loan creation runs first, then the ownership-scoped update; 404 when no
row matched. -/
def updateLoan (db : DB) (uid id : Nat) (now : Nat) (b : LoanBody) : Response × DB :=
  if blankOpt b.person_name then (⟨400, .error "Person name is required"⟩, db)
  else if blankOpt b.«type» then (⟨400, .error "Type is required"⟩, db)
  else if b.amount.invalid then (⟨400, .error "Valid amount is required"⟩, db)
  else if blankOpt b.description then (⟨400, .error "Description is required"⟩, db)
  else
    let updated := (db.loans.filter (loanKeyMatch id uid)).map (loanOverwrite b now)
    let db' := { db with
                 loans := db.loans.map fun r =>
                   if loanKeyMatch id uid r then loanOverwrite b now r else r }
    match updated with
    | [] => (⟨404, .error "Loan not found"⟩, db')
    | r :: _ => (⟨200, .loanRow r⟩, db')

/-- Handler of `DELETE /api/loans/:id` (try-block body). -/
def deleteLoan (db : DB) (uid id : Nat) : Response × DB :=
  let deleted := db.loans.filter (loanKeyMatch id uid)
  let db' := { db with loans := db.loans.filter fun r => !loanKeyMatch id uid r }
  match deleted with
  | [] => (⟨404, .error "Loan not found"⟩, db')
  | _ :: _ => (⟨200, .message "Loan deleted successfully"⟩, db')

/-! ### Handler boundary: the catch blocks

Each route body runs inside `try ... catch (err) ...`; a storage-layer
failure aborts the try block before it commits anything and the catch block
answers with a fixed 500 response.  We model "did the storage layer fail
during this request" as an explicit outcome parameter. -/

/-- Outcome of the storage layer during one request. -/
inductive StoreOutcome where
  | ok
  | failed
deriving DecidableEq

/-- Route `POST /api/register` with its catch block. -/
def registerRoute (o : StoreOutcome) (db : DB) (secret : String) (now : Nat)
    (name email password : String) : Response × DB :=
  match o with
  | .failed => (⟨500, .error "Server error"⟩, db)
  | .ok => register db secret now name email password

/-- Route `POST /api/login` with its catch block. -/
def loginRoute (o : StoreOutcome) (db : DB) (secret : String) (now : Nat)
    (email password : String) : Response × DB :=
  match o with
  | .failed => (⟨500, .error "Server error"⟩, db)
  | .ok => login db secret now email password

/-- Route `GET /api/expenses` with its catch block. -/
def getExpensesRoute (o : StoreOutcome) (db : DB) (uid : Nat) : Response × DB :=
  match o with
  | .failed => (⟨500, .error "Server error"⟩, db)
  | .ok => getExpenses db uid

/-- Route `POST /api/expenses` with its catch block. -/
def createExpenseRoute (o : StoreOutcome) (db : DB) (uid : Nat) (now : Nat)
    (b : ExpenseBody) : Response × DB :=
  match o with
  | .failed => (⟨500, .error "Server error"⟩, db)
  | .ok => createExpense db uid now b

/-- Route `DELETE /api/expenses/:id` with its catch block. -/
def deleteExpenseRoute (o : StoreOutcome) (db : DB) (uid id : Nat) : Response × DB :=
  match o with
  | .failed => (⟨500, .error "Server error"⟩, db)
  | .ok => deleteExpense db uid id

/-- Route `PUT /api/expenses/:id` with its catch block. -/
def updateExpenseRoute (o : StoreOutcome) (db : DB) (uid id : Nat)
    (b : ExpenseBody) : Response × DB :=
  match o with
  | .failed => (⟨500, .error "Server error"⟩, db)
  | .ok => updateExpense db uid id b

/-- Route `GET /api/loans` with its catch block. -/
def getLoansRoute (o : StoreOutcome) (db : DB) (uid : Nat) : Response × DB :=
  match o with
  | .failed => (⟨500, .error "Server error"⟩, db)
  | .ok => getLoans db uid

/-- Route `POST /api/loans` with its catch block: this is the one handler
whose catch block answers `'Failed to create loan'` instead of
`'Server error'`. -/
def createLoanRoute (o : StoreOutcome) (db : DB) (uid : Nat) (now : Nat)
    (b : LoanBody) : Response × DB :=
  match o with
  | .failed => (⟨500, .error "Failed to create loan"⟩, db)
  | .ok => createLoan db uid now b

/-- Route `PUT /api/loans/:id` with its catch block. -/
def updateLoanRoute (o : StoreOutcome) (db : DB) (uid id : Nat) (now : Nat)
    (b : LoanBody) : Response × DB :=
  match o with
  | .failed => (⟨500, .error "Server error"⟩, db)
  | .ok => updateLoan db uid id now b

/-- Route `DELETE /api/loans/:id` with its catch block. -/
def deleteLoanRoute (o : StoreOutcome) (db : DB) (uid id : Nat) : Response × DB :=
  match o with
  | .failed => (⟨500, .error "Server error"⟩, db)
  | .ok => deleteLoan db uid id

/-! ### Concrete fixtures used by witnesses and counterexamples -/

/-- Fixture user, registered with the password `pw123`. -/
def sampleUser : UserRow :=
  ⟨1, "Ana", "ana@x.com", bcrypt.hash "pw123" (bcrypt.genSalt 10)⟩

/-- Fixture expense row owned by user 1. -/
def sampleTx : TxRow := ⟨1, 1, "expense", some "food", some 20, some "lunch", 100⟩

/-- Fixture loan row owned by user 1. -/
def sampleLoan : LoanRow := ⟨1, 1, "Bob", "lent", 50, "cash", none, none, 100, 100⟩

/-- Fixture store: one user, one expense, one loan, all owned by user 1. -/
def sampleDb : DB := ⟨[sampleUser], [sampleTx], [sampleLoan], 2, 2, 2⟩

/-- A loan body that passes all four validation checks. -/
def validLoanBody : LoanBody := ⟨some "Bob", some "lent", .num 50, some "cash", none, none⟩

/-- A loan body with every field absent: the first check already fails. -/
def blankLoanBody : LoanBody := ⟨none, none, .missing, none, none, none⟩

/-- An expense body with every field absent. -/
def emptyExpenseBody : ExpenseBody := ⟨none, none, none⟩

/-! ### Helper lemmas -/

theorem txKeyMatch_true {id uid : Nat} {r : TxRow} :
    txKeyMatch id uid r = true ↔ r.transaction_id = id ∧ r.user_id = uid := by
  simp [txKeyMatch]

theorem txKeyMatch_false {id uid : Nat} {r : TxRow}
    (h : ¬(r.transaction_id = id ∧ r.user_id = uid)) :
    txKeyMatch id uid r = false := by
  cases hb : txKeyMatch id uid r
  · rfl
  · exact absurd (txKeyMatch_true.mp hb) h

theorem loanKeyMatch_true {id uid : Nat} {r : LoanRow} :
    loanKeyMatch id uid r = true ↔ r.loan_id = id ∧ r.user_id = uid := by
  simp [loanKeyMatch]

theorem loanKeyMatch_false {id uid : Nat} {r : LoanRow}
    (h : ¬(r.loan_id = id ∧ r.user_id = uid)) :
    loanKeyMatch id uid r = false := by
  cases hb : loanKeyMatch id uid r
  · rfl
  · exact absurd (loanKeyMatch_true.mp hb) h

theorem expenseOf_true {uid : Nat} {r : TxRow} :
    expenseOf uid r = true ↔ r.user_id = uid ∧ r.«type» = "expense" := by
  simp [expenseOf]

theorem filter_eq_nil_of_all_false {α : Type} {p : α → Bool} {l : List α}
    (h : ∀ x ∈ l, p x = false) : l.filter p = [] := by
  rw [List.filter_eq_nil_iff]
  intro a ha
  simp [h a ha]

theorem filter_not_eq_self_of_all_false {α : Type} {p : α → Bool} {l : List α}
    (h : ∀ x ∈ l, p x = false) : (l.filter fun r => !p r) = l := by
  rw [List.filter_eq_self]
  intro a ha
  simp [h a ha]

theorem map_ite_eq_self_of_all_false {α : Type} {p : α → Bool} {f : α → α} {l : List α}
    (h : ∀ x ∈ l, p x = false) :
    (l.map fun r => if p r then f r else r) = l := by
  induction l with
  | nil => rfl
  | cons a l ih =>
    simp only [List.map_cons, h a (List.mem_cons_self a l),
      ih fun x hx => h x (List.mem_cons_of_mem a hx), Bool.false_eq_true, if_false]

theorem deleteExpense_notFound {db : DB} {uid id : Nat}
    (h : ∀ r ∈ db.transactions, txKeyMatch id uid r = false) :
    deleteExpense db uid id = (⟨404, .error "Transaction not found"⟩, db) := by
  unfold deleteExpense
  rw [filter_eq_nil_of_all_false h, filter_not_eq_self_of_all_false h]

theorem deleteLoan_notFound {db : DB} {uid id : Nat}
    (h : ∀ r ∈ db.loans, loanKeyMatch id uid r = false) :
    deleteLoan db uid id = (⟨404, .error "Loan not found"⟩, db) := by
  unfold deleteLoan
  rw [filter_eq_nil_of_all_false h, filter_not_eq_self_of_all_false h]

theorem deleteExpense_snd (db : DB) (uid id : Nat) :
    (deleteExpense db uid id).2
      = { db with transactions := db.transactions.filter fun r => !txKeyMatch id uid r } := by
  unfold deleteExpense
  cases db.transactions.filter (txKeyMatch id uid) <;> rfl

theorem deleteLoan_snd (db : DB) (uid id : Nat) :
    (deleteLoan db uid id).2
      = { db with loans := db.loans.filter fun r => !loanKeyMatch id uid r } := by
  unfold deleteLoan
  cases db.loans.filter (loanKeyMatch id uid) <;> rfl

theorem updateExpense_notFound {db : DB} {uid id : Nat} (b : ExpenseBody)
    (h : ∀ r ∈ db.transactions, txKeyMatch id uid r = false) :
    updateExpense db uid id b = (⟨404, .error "Transaction not found"⟩, db) := by
  unfold updateExpense
  rw [filter_eq_nil_of_all_false h, List.map_nil, map_ite_eq_self_of_all_false h]

theorem updateLoan_notFound {db : DB} {uid id : Nat} {now : Nat} {b : LoanBody}
    (hv : loanBodyValid b)
    (h : ∀ r ∈ db.loans, loanKeyMatch id uid r = false) :
    updateLoan db uid id now b = (⟨404, .error "Loan not found"⟩, db) := by
  obtain ⟨h1, h2, h3, h4⟩ := hv
  unfold updateLoan
  rw [h1, h2, h3, h4]
  simp only [Bool.false_eq_true, if_false]
  rw [filter_eq_nil_of_all_false h, List.map_nil, map_ite_eq_self_of_all_false h]

theorem updateLoan_invalid_body {db : DB} {uid id : Nat} {now : Nat} {b : LoanBody}
    (hv : ¬loanBodyValid b) :
    (updateLoan db uid id now b).1.status = 400 ∧ (updateLoan db uid id now b).2 = db := by
  unfold loanBodyValid at hv
  unfold updateLoan
  cases h1 : blankOpt b.person_name with
  | true => simp [h1]
  | false =>
    cases h2 : blankOpt b.«type» with
    | true => simp [h1, h2]
    | false =>
      cases h3 : b.amount.invalid with
      | true => simp [h1, h2, h3]
      | false =>
        cases h4 : blankOpt b.description with
        | true => simp [h1, h2, h3, h4]
        | false => exact absurd ⟨h1, h2, h3, h4⟩ hv

/-! ### Claim theorems -/

/-- C8: Deleting a nonexistent resource id (expense or loan) yields NotFound
(HTTP 404) and leaves the store unchanged; and after any delete of an id by a
caller, a repeated delete of the same id by that caller always yields
NotFound on the resulting store and leaves it unchanged, so a delete never
succeeds twice. -/
theorem delete_nonexistent_notFound_idempotent (db : DB) (uid id : Nat) :
    ((∀ r ∈ db.transactions, ¬(r.transaction_id = id ∧ r.user_id = uid)) →
      deleteExpense db uid id = (⟨404, .error "Transaction not found"⟩, db)) ∧
    ((∀ r ∈ db.loans, ¬(r.loan_id = id ∧ r.user_id = uid)) →
      deleteLoan db uid id = (⟨404, .error "Loan not found"⟩, db)) ∧
    deleteExpense (deleteExpense db uid id).2 uid id
      = (⟨404, .error "Transaction not found"⟩, (deleteExpense db uid id).2) ∧
    deleteLoan (deleteLoan db uid id).2 uid id
      = (⟨404, .error "Loan not found"⟩, (deleteLoan db uid id).2) := by
  refine ⟨fun h => deleteExpense_notFound fun r hr => txKeyMatch_false (h r hr),
    fun h => deleteLoan_notFound fun r hr => loanKeyMatch_false (h r hr), ?_, ?_⟩
  · rw [deleteExpense_snd db uid id]
    apply deleteExpense_notFound
    intro r hr
    simpa using (List.mem_filter.mp hr).2
  · rw [deleteLoan_snd db uid id]
    apply deleteLoan_notFound
    intro r hr
    simpa using (List.mem_filter.mp hr).2

/-- Witness for C8 at a concrete store: id 5 exists in neither table. -/
theorem delete_nonexistent_notFound_idempotent_witness :
    deleteExpense sampleDb 1 5 = (⟨404, RespBody.error "Transaction not found"⟩, sampleDb) ∧
    deleteLoan sampleDb 1 5 = (⟨404, RespBody.error "Loan not found"⟩, sampleDb) := by
  have h := delete_nonexistent_notFound_idempotent sampleDb 1 5
  exact ⟨h.1 (by decide), h.2.1 (by decide)⟩

/-- C1 (amended): for expense Update, expense Delete and loan Delete, a
target that does not exist or is owned by a different user yields 404 with
the not-found error body and an unchanged store, unconditionally; loan
Update yields that same 404 provided its body passes validation, and for
every body it never succeeds and never changes the store (it answers 400
when validation fails, before the ownership check). -/
theorem cross_user_mutation_notFound (db : DB) (uid id now : Nat)
    (eb : ExpenseBody) (lb : LoanBody)
    (htx : ∀ r ∈ db.transactions, ¬(r.transaction_id = id ∧ r.user_id = uid))
    (hln : ∀ r ∈ db.loans, ¬(r.loan_id = id ∧ r.user_id = uid))
    (hv : loanBodyValid lb) :
    updateExpense db uid id eb = (⟨404, .error "Transaction not found"⟩, db) ∧
    deleteExpense db uid id = (⟨404, .error "Transaction not found"⟩, db) ∧
    deleteLoan db uid id = (⟨404, .error "Loan not found"⟩, db) ∧
    updateLoan db uid id now lb = (⟨404, .error "Loan not found"⟩, db) ∧
    (∀ lb2 : LoanBody,
      ((updateLoan db uid id now lb2).1.status = 400 ∨
        (updateLoan db uid id now lb2).1.status = 404) ∧
      (updateLoan db uid id now lb2).2 = db) := by
  have htx' : ∀ r ∈ db.transactions, txKeyMatch id uid r = false :=
    fun r hr => txKeyMatch_false (htx r hr)
  have hln' : ∀ r ∈ db.loans, loanKeyMatch id uid r = false :=
    fun r hr => loanKeyMatch_false (hln r hr)
  refine ⟨updateExpense_notFound eb htx', deleteExpense_notFound htx',
    deleteLoan_notFound hln', updateLoan_notFound hv hln', fun lb2 => ?_⟩
  by_cases h2 : loanBodyValid lb2
  · rw [updateLoan_notFound h2 hln']
    exact ⟨Or.inr rfl, rfl⟩
  · obtain ⟨hs, hdb⟩ := @updateLoan_invalid_body db uid id now lb2 h2
    exact ⟨Or.inl hs, hdb⟩

/-- Witness for C1's amended theorem: caller 2 targets id 1, which exists in
both tables but is owned by user 1. -/
theorem cross_user_mutation_notFound_witness :
    updateExpense sampleDb 2 1 emptyExpenseBody
      = (⟨404, RespBody.error "Transaction not found"⟩, sampleDb) ∧
    deleteExpense sampleDb 2 1
      = (⟨404, RespBody.error "Transaction not found"⟩, sampleDb) ∧
    deleteLoan sampleDb 2 1 = (⟨404, RespBody.error "Loan not found"⟩, sampleDb) ∧
    updateLoan sampleDb 2 1 0 validLoanBody
      = (⟨404, RespBody.error "Loan not found"⟩, sampleDb) := by
  have h := cross_user_mutation_notFound sampleDb 2 1 0 emptyExpenseBody validLoanBody
    (by decide) (by decide) (by decide)
  exact ⟨h.1, h.2.1, h.2.2.1, h.2.2.2.1⟩

/-- Counterexample to C1 as stated: loan id 1 exists and is owned by user 1,
yet caller 2's update with an empty body answers 400 (the validation error),
not 404, because loan update validates the body before the ownership check. -/
theorem cross_user_loan_update_400_counterexample :
    (∃ r ∈ sampleDb.loans, r.loan_id = 1 ∧ r.user_id ≠ 2) ∧
    (updateLoan sampleDb 2 1 0 blankLoanBody).1.status = 400 ∧
    (updateLoan sampleDb 2 1 0 blankLoanBody).1.status ≠ 404 := by decide

/-- C2: a protected endpoint answers 401 before the handler runs when the
authorization header yields no truthy token at index 1, answers 403 when the
extracted token fails verification (wrong signature or expired), and on
successful verification runs the handler with the decoded payload attached. -/
theorem auth_gate (secret : String) (now : Nat) (hdr : Option (List AuthWord))
    (db : DB) (handler : JwtPayload → DB → Response × DB) :
    (jsTokenTruthy hdr = false →
      runProtected secret now hdr handler db = (⟨401, .error "Access denied"⟩, db)) ∧
    (∀ w, jsToken hdr = some w → w.truthy = true → w.verify secret now = none →
      runProtected secret now hdr handler db = (⟨403, .error "Invalid token"⟩, db)) ∧
    (∀ w u, jsToken hdr = some w → w.verify secret now = some u →
      runProtected secret now hdr handler db = handler u db) := by
  refine ⟨?_, ?_, ?_⟩
  · intro hfalse
    unfold jsTokenTruthy at hfalse
    unfold runProtected authenticateToken
    cases hjt : jsToken hdr with
    | none => rfl
    | some w =>
      rw [hjt] at hfalse
      have hf : w.truthy = false := by simpa using hfalse
      simp [hjt, hf]
  · intro w hjt htr hv
    unfold runProtected authenticateToken
    simp [hjt, htr, hv]
  · intro w u hjt hv
    have htr : w.truthy = true := by
      cases w with
      | raw s => simp [AuthWord.verify] at hv
      | tok t => rfl
    unfold runProtected authenticateToken
    simp [hjt, htr, hv]

/-- Witness for C2: a header with no index-1 word gives 401; a token signed
with the wrong secret gives 403; a token signed with the right secret runs
the handler on the decoded identity. -/
theorem auth_gate_witness :
    runProtected "s" 10 (some [AuthWord.raw "Bearer"])
        (fun u db => (⟨200, RespBody.message "ok"⟩, db)) sampleDb
      = (⟨401, RespBody.error "Access denied"⟩, sampleDb) ∧
    runProtected "s" 10 (some [AuthWord.raw "Bearer", AuthWord.tok ⟨⟨1⟩, "x", 0, 86400⟩])
        (fun u db => (⟨200, RespBody.message "ok"⟩, db)) sampleDb
      = (⟨403, RespBody.error "Invalid token"⟩, sampleDb) ∧
    runProtected "s" 10 (some [AuthWord.raw "Bearer", AuthWord.tok ⟨⟨1⟩, "s", 0, 86400⟩])
        (fun u db => (⟨200, RespBody.message "ok"⟩, db)) sampleDb
      = (⟨200, RespBody.message "ok"⟩, sampleDb) := by
  refine ⟨(auth_gate "s" 10 (some [AuthWord.raw "Bearer"]) sampleDb
      (fun u db => (⟨200, RespBody.message "ok"⟩, db))).1 (by decide),
    (auth_gate "s" 10 (some [AuthWord.raw "Bearer", AuthWord.tok ⟨⟨1⟩, "x", 0, 86400⟩])
      sampleDb (fun u db => (⟨200, RespBody.message "ok"⟩, db))).2.1
      (AuthWord.tok ⟨⟨1⟩, "x", 0, 86400⟩) (by decide) (by decide) (by decide),
    (auth_gate "s" 10 (some [AuthWord.raw "Bearer", AuthWord.tok ⟨⟨1⟩, "s", 0, 86400⟩])
      sampleDb (fun u db => (⟨200, RespBody.message "ok"⟩, db))).2.2
      (AuthWord.tok ⟨⟨1⟩, "s", 0, 86400⟩) ⟨1⟩ (by decide) (by decide)⟩

/-- C9 (amended): on a storage-layer failure every route catches the error
at the handler boundary and answers HTTP 500 with a JSON body of the fixed
shape of one error string, leaving the store unchanged; every route uses the
opaque message `Server error` except `POST /api/loans`, whose catch block
answers `Failed to create loan`. -/
theorem catch_blocks_500 (db : DB) (secret : String) (now uid id : Nat)
    (name email password : String) (eb : ExpenseBody) (lb : LoanBody) :
    registerRoute .failed db secret now name email password
      = (⟨500, .error "Server error"⟩, db) ∧
    loginRoute .failed db secret now email password
      = (⟨500, .error "Server error"⟩, db) ∧
    getExpensesRoute .failed db uid = (⟨500, .error "Server error"⟩, db) ∧
    createExpenseRoute .failed db uid now eb = (⟨500, .error "Server error"⟩, db) ∧
    deleteExpenseRoute .failed db uid id = (⟨500, .error "Server error"⟩, db) ∧
    updateExpenseRoute .failed db uid id eb = (⟨500, .error "Server error"⟩, db) ∧
    getLoansRoute .failed db uid = (⟨500, .error "Server error"⟩, db) ∧
    updateLoanRoute .failed db uid id now lb = (⟨500, .error "Server error"⟩, db) ∧
    deleteLoanRoute .failed db uid id = (⟨500, .error "Server error"⟩, db) ∧
    createLoanRoute .failed db uid now lb = (⟨500, .error "Failed to create loan"⟩, db) :=
  ⟨rfl, rfl, rfl, rfl, rfl, rfl, rfl, rfl, rfl, rfl⟩

/-- Counterexample to C9 as stated: the loan-creation route's catch block
answers 500 with the message `Failed to create loan`, not the opaque
`Server error` the claim requires of every handler. -/
theorem loan_create_catch_message_counterexample :
    (createLoanRoute .failed sampleDb 1 0 validLoanBody).1
      = ⟨500, RespBody.error "Failed to create loan"⟩ ∧
    (createLoanRoute .failed sampleDb 1 0 validLoanBody).1
      ≠ ⟨500, RespBody.error "Server error"⟩ := by decide

theorem register_dup_eq {db : DB} {secret : String} {now : Nat}
    {name email pw : String} (h : ∃ u ∈ db.users, u.email = email) :
    register db secret now name email pw = (⟨400, .error "User already exists"⟩, db) := by
  obtain ⟨u, hu, he⟩ := h
  have hmem : u ∈ db.users.filter fun v => v.email == email :=
    List.mem_filter.mpr ⟨hu, by simp [he]⟩
  have hlen : (db.users.filter fun v => v.email == email).length > 0 :=
    List.length_pos.mpr (List.ne_nil_of_mem hmem)
  simp only [register]
  rw [if_pos hlen]

theorem register_fresh_eq {db : DB} {secret : String} {now : Nat}
    {name email pw : String} (h : ∀ u ∈ db.users, u.email ≠ email) :
    register db secret now name email pw =
      (⟨200, .token ⟨⟨db.nextUserId⟩, secret, now, now + 86400⟩⟩,
        { db with
            users := db.users ++
              [⟨db.nextUserId, name, email, bcrypt.hash pw (bcrypt.genSalt 10)⟩],
            nextUserId := db.nextUserId + 1 }) := by
  have hnil : (db.users.filter fun v => v.email == email) = [] :=
    filter_eq_nil_of_all_false fun u hu => by simp [h u hu]
  simp only [register, hnil]
  rfl

theorem login_no_user_eq {db : DB} {secret : String} {now : Nat} {email pw : String}
    (h : ∀ u ∈ db.users, u.email ≠ email) :
    login db secret now email pw = (⟨400, .error "User does not exist"⟩, db) := by
  have hnil : (db.users.filter fun v => v.email == email) = [] :=
    filter_eq_nil_of_all_false fun u hu => by simp [h u hu]
  simp only [login, hnil]

theorem login_found {db : DB} {secret : String} {now : Nat} {email pw : String}
    {u : UserRow} {rest : List UserRow}
    (hfil : (db.users.filter fun v => v.email == email) = u :: rest) :
    login db secret now email pw =
      (if bcrypt.compare pw u.password = false
       then (⟨400, .error "Invalid password"⟩, db)
       else (⟨200, .tokenName ⟨⟨u.user_id⟩, secret, now, now + 86400⟩ u.name⟩, db)) := by
  simp only [login, hfil]
  rfl

/-- C3: registration with an email already in the user store answers 400
with the duplicate-user error and creates no row; with a fresh email it
inserts exactly one user row whose stored password is the salted cost-10
bcrypt hash of the submitted password, bumps the id counter, and answers
with a token bound to the new row's identifier, issued now and expiring one
day (86400 seconds) later. -/
theorem register_spec (db : DB) (secret : String) (now : Nat)
    (name email pw : String) :
    ((∃ u ∈ db.users, u.email = email) →
      register db secret now name email pw
        = (⟨400, .error "User already exists"⟩, db)) ∧
    ((∀ u ∈ db.users, u.email ≠ email) →
      register db secret now name email pw =
        (⟨200, .token ⟨⟨db.nextUserId⟩, secret, now, now + 86400⟩⟩,
          { db with
              users := db.users ++
                [⟨db.nextUserId, name, email, bcrypt.hash pw (bcrypt.genSalt 10)⟩],
              nextUserId := db.nextUserId + 1 })) :=
  ⟨fun h => register_dup_eq h, fun h => register_fresh_eq h⟩

/-- Witness for C3: registering a fresh email against the fixture store
succeeds with a 1-day token for user id 2; re-registering the fixture
user's email fails with 400 and an unchanged store. -/
theorem register_spec_witness :
    register sampleDb "s" 0 "Bob" "bob@x.com" "pw"
      = (⟨200, RespBody.token ⟨⟨2⟩, "s", 0, 86400⟩⟩,
         { sampleDb with
             users := sampleDb.users ++
               [⟨2, "Bob", "bob@x.com", bcrypt.hash "pw" (bcrypt.genSalt 10)⟩],
             nextUserId := 3 }) ∧
    register sampleDb "s" 0 "Ana2" "ana@x.com" "pw"
      = (⟨400, RespBody.error "User already exists"⟩, sampleDb) := by
  constructor
  · exact (register_spec sampleDb "s" 0 "Bob" "bob@x.com" "pw").2 (by decide)
  · exact (register_spec sampleDb "s" 0 "Ana2" "ana@x.com" "pw").1 (by decide)

/-- C4: login answers 400 with the user-not-found error when no user row
matches the email, 400 with the invalid-password error when the bcrypt
comparison against the first matching row fails, and on success a 1-day
token bound to that row's identifier together with its display name; the
store is returned unchanged in every case. -/
theorem login_spec (db : DB) (secret : String) (now : Nat) (email pw : String) :
    ((∀ u ∈ db.users, u.email ≠ email) →
      login db secret now email pw = (⟨400, .error "User does not exist"⟩, db)) ∧
    (∀ u rest, (db.users.filter fun v => v.email == email) = u :: rest →
      (bcrypt.compare pw u.password = false →
        login db secret now email pw = (⟨400, .error "Invalid password"⟩, db)) ∧
      (bcrypt.compare pw u.password = true →
        login db secret now email pw
          = (⟨200, .tokenName ⟨⟨u.user_id⟩, secret, now, now + 86400⟩ u.name⟩, db))) ∧
    (login db secret now email pw).2 = db := by
  refine ⟨fun h => login_no_user_eq h, fun u rest hfil => ?_, ?_⟩
  · rw [login_found hfil]
    constructor
    · intro hc
      rw [if_pos hc]
    · intro hc
      rw [if_neg (by simp [hc])]
  · unfold login
    cases hfil : db.users.filter fun v => v.email == email with
    | nil => rfl
    | cons u rest =>
      dsimp only
      split <;> rfl

/-- Witness for C4 at the fixture store: unknown email, wrong password and
correct password each behave as the theorem states. -/
theorem login_spec_witness :
    login sampleDb "s" 5 "zoe@x.com" "pw" = (⟨400, RespBody.error "User does not exist"⟩, sampleDb) ∧
    login sampleDb "s" 5 "ana@x.com" "bad" = (⟨400, RespBody.error "Invalid password"⟩, sampleDb) ∧
    login sampleDb "s" 5 "ana@x.com" "pw123"
      = (⟨200, RespBody.tokenName ⟨⟨1⟩, "s", 5, 5 + 86400⟩ "Ana"⟩, sampleDb) := by
  refine ⟨(login_spec sampleDb "s" 5 "zoe@x.com" "pw").1 (by decide), ?_, ?_⟩
  · exact ((login_spec sampleDb "s" 5 "ana@x.com" "bad").2.1 sampleUser []
      (by decide)).1 (by decide)
  · exact ((login_spec sampleDb "s" 5 "ana@x.com" "pw123").2.1 sampleUser []
      (by decide)).2 (by decide)

/-- C5: registering a fresh credential triple and then logging in with the
same email and password succeeds, and the identifier embedded in the login
token equals the identifier of the user row register created (which is the
one embedded in register's own token). -/
theorem register_login_roundtrip (db : DB) (secret : String) (now now2 : Nat)
    (name email pw : String) (hfresh : ∀ u ∈ db.users, u.email ≠ email) :
    ∃ tok : JwtToken,
      (register db secret now name email pw).1 = ⟨200, .token tok⟩ ∧
      ((register db secret now name email pw).2).users
        = db.users ++ [⟨tok.payload.id, name, email, bcrypt.hash pw (bcrypt.genSalt 10)⟩] ∧
      ∃ tok2 : JwtToken,
        (login (register db secret now name email pw).2 secret now2 email pw).1
          = ⟨200, .tokenName tok2 name⟩ ∧
        tok2.payload.id = tok.payload.id := by
  rw [register_fresh_eq hfresh]
  refine ⟨⟨⟨db.nextUserId⟩, secret, now, now + 86400⟩, rfl, rfl, ?_⟩
  have hfil : (({ db with
      users := db.users ++
        [(⟨db.nextUserId, name, email, bcrypt.hash pw (bcrypt.genSalt 10)⟩ : UserRow)],
      nextUserId := db.nextUserId + 1 } : DB)).users.filter
        (fun v => v.email == email)
      = (⟨db.nextUserId, name, email, bcrypt.hash pw (bcrypt.genSalt 10)⟩ : UserRow) :: [] := by
    show ((db.users ++
      [(⟨db.nextUserId, name, email, bcrypt.hash pw (bcrypt.genSalt 10)⟩ : UserRow)]).filter
        (fun v => v.email == email)) = _
    rw [List.filter_append,
      filter_eq_nil_of_all_false fun u hu => by simp [hfresh u hu]]
    simp
  rw [login_found hfil]
  rw [if_neg (by simp [bcrypt.compare, bcrypt.hash])]
  exact ⟨⟨⟨db.nextUserId⟩, secret, now2, now2 + 86400⟩, rfl, rfl⟩

/-- Witness for C5: the concrete round trip of registering bob@x.com on the
fixture store and logging in with the same credentials. -/
theorem register_login_roundtrip_witness :
    ∃ tok : JwtToken,
      (register sampleDb "s" 0 "Bob" "bob@x.com" "pw").1 = ⟨200, RespBody.token tok⟩ ∧
      ((register sampleDb "s" 0 "Bob" "bob@x.com" "pw").2).users
        = sampleDb.users ++
            [⟨tok.payload.id, "Bob", "bob@x.com", bcrypt.hash "pw" (bcrypt.genSalt 10)⟩] ∧
      ∃ tok2 : JwtToken,
        (login (register sampleDb "s" 0 "Bob" "bob@x.com" "pw").2 "s" 7 "bob@x.com" "pw").1
          = ⟨200, RespBody.tokenName tok2 "Bob"⟩ ∧
        tok2.payload.id = tok.payload.id :=
  register_login_roundtrip sampleDb "s" 0 7 "Bob" "bob@x.com" "pw" (by decide)

theorem updateExpense_snd (db : DB) (uid id : Nat) (b : ExpenseBody) :
    (updateExpense db uid id b).2
      = { db with
          transactions := db.transactions.map fun r =>
            if txKeyMatch id uid r then txOverwrite b r else r } := by
  unfold updateExpense
  cases (db.transactions.filter (txKeyMatch id uid)).map (txOverwrite b) <;> rfl

/-- C6: loan creation rejects, with 400 and the field's own message, a blank
or missing person name, type or description and a missing, non-numeric or
non-positive amount (the amount guard is exactly the missing/NaN/≤0
predicate); when every check passes it appends exactly one loan row, owned
by the caller with trimmed text fields, and returns it with 201; every
rejection leaves the store unchanged. -/
theorem create_loan_spec (db : DB) (uid now : Nat) (b : LoanBody) :
    (blankOpt b.person_name = true →
      createLoan db uid now b = (⟨400, .error "Person name is required"⟩, db)) ∧
    (blankOpt b.person_name = false → blankOpt b.«type» = true →
      createLoan db uid now b = (⟨400, .error "Type is required"⟩, db)) ∧
    (blankOpt b.person_name = false → blankOpt b.«type» = false →
      b.amount.invalid = true →
      createLoan db uid now b = (⟨400, .error "Valid amount is required"⟩, db)) ∧
    (blankOpt b.person_name = false → blankOpt b.«type» = false →
      b.amount.invalid = false → blankOpt b.description = true →
      createLoan db uid now b = (⟨400, .error "Description is required"⟩, db)) ∧
    (b.amount.invalid = true ↔
      b.amount = .missing ∨ b.amount = .nan ∨ ∃ n, b.amount = .num n ∧ n ≤ 0) ∧
    (loanBodyValid b →
      ∃ row : LoanRow,
        row = ⟨db.nextLoanId, uid, jsTrim (b.person_name.getD ""),
          jsTrim (b.«type».getD ""), b.amount.val, jsTrim (b.description.getD ""),
          none, b.due_date, now, now⟩ ∧
        createLoan db uid now b
          = (⟨201, .loanRow row⟩,
             { db with loans := db.loans ++ [row],
                       nextLoanId := db.nextLoanId + 1 })) := by
  refine ⟨?_, ?_, ?_, ?_, ?_, ?_⟩
  · intro h1
    simp [createLoan, h1]
  · intro h1 h2
    simp [createLoan, h1, h2]
  · intro h1 h2 h3
    simp [createLoan, h1, h2, h3]
  · intro h1 h2 h3 h4
    simp [createLoan, h1, h2, h3, h4]
  · cases ha : b.amount with
    | missing => simp [JsAmount.invalid, JsAmount.falsy, JsAmount.isNaNv, JsAmount.leZero]
    | nan => simp [JsAmount.invalid, JsAmount.falsy, JsAmount.isNaNv, JsAmount.leZero]
    | num n =>
      simp [JsAmount.invalid, JsAmount.falsy, JsAmount.isNaNv, JsAmount.leZero]
      omega
  · intro hv
    obtain ⟨h1, h2, h3, h4⟩ := hv
    exact ⟨_, rfl, by simp [createLoan, h1, h2, h3, h4]⟩

/-- Witness for C6: a fully valid body creates row 2 owned by caller 1 with
201, and an amount of 0 is rejected with the amount message. -/
theorem create_loan_spec_witness :
    createLoan sampleDb 1 50 validLoanBody
      = (⟨201, RespBody.loanRow ⟨2, 1, "Bob", "lent", 50, "cash", none, none, 50, 50⟩⟩,
         { sampleDb with
             loans := sampleDb.loans ++ [⟨2, 1, "Bob", "lent", 50, "cash", none, none, 50, 50⟩],
             nextLoanId := 3 }) ∧
    createLoan sampleDb 1 50 ⟨some "Bob", some "lent", .num 0, some "cash", none, none⟩
      = (⟨400, RespBody.error "Valid amount is required"⟩, sampleDb) := by
  constructor
  · obtain ⟨row, hrow, heq⟩ :=
      (create_loan_spec sampleDb 1 50 validLoanBody).2.2.2.2.2 (by decide)
    subst hrow
    rw [heq]
    decide
  · exact (create_loan_spec sampleDb 1 50
      ⟨some "Bob", some "lent", .num 0, some "cash", none, none⟩).2.2.1
      (by decide) (by decide) (by decide)

/-- C7: listing expenses returns exactly the caller's transaction rows of
type expense, sorted by date descending, without touching the store; a row
just created by the caller appears in the caller's list and in no other
user's list. -/
theorem list_expenses_spec (db : DB) (uid uid' now : Nat) (body : ExpenseBody) :
    (∃ rows, (getExpenses db uid).1 = ⟨200, .txRows rows⟩ ∧
      (∀ r, r ∈ rows ↔ r ∈ db.transactions ∧ r.user_id = uid ∧ r.«type» = "expense") ∧
      rows.Pairwise dateDesc) ∧
    (getExpenses db uid).2 = db ∧
    (uid' ≠ uid →
      ∃ row rows1, (createExpense db uid now body).1 = ⟨200, .txRow row⟩ ∧
        row.user_id = uid ∧
        (getExpenses (createExpense db uid now body).2 uid).1 = ⟨200, .txRows rows1⟩ ∧
        row ∈ rows1 ∧
        ∀ rows2, (getExpenses (createExpense db uid now body).2 uid').1
            = ⟨200, .txRows rows2⟩ → row ∉ rows2) := by
  refine ⟨⟨_, rfl, ?_, ?_⟩, rfl, ?_⟩
  · intro r
    rw [List.mem_insertionSort, List.mem_filter, expenseOf_true]
  · exact List.sorted_insertionSort dateDesc _
  · intro hneq
    refine ⟨⟨db.nextTxId, uid, "expense", body.category, body.amount,
      body.description, now⟩, _, rfl, rfl, rfl, ?_, ?_⟩
    · rw [List.mem_insertionSort, List.mem_filter]
      constructor
      · simp [createExpense]
      · simp [expenseOf]
    · intro rows2 h2 hmem
      have hr2 : List.insertionSort dateDesc
          ((createExpense db uid now body).2.transactions.filter (expenseOf uid'))
          = rows2 := RespBody.txRows.inj (congrArg Response.body h2)
      rw [← hr2, List.mem_insertionSort, List.mem_filter] at hmem
      exact hneq (expenseOf_true.mp hmem.2).1.symm

/-- Witness for C7: on the fixture store, caller 1 creates a row; it shows
up in caller 1's list and user 2's list excludes it. -/
theorem list_expenses_spec_witness :
    ∃ row rows1, (createExpense sampleDb 1 7 emptyExpenseBody).1 = ⟨200, RespBody.txRow row⟩ ∧
      row.user_id = 1 ∧
      (getExpenses (createExpense sampleDb 1 7 emptyExpenseBody).2 1).1
        = ⟨200, RespBody.txRows rows1⟩ ∧
      row ∈ rows1 ∧
      ∀ rows2, (getExpenses (createExpense sampleDb 1 7 emptyExpenseBody).2 2).1
          = ⟨200, RespBody.txRows rows2⟩ → row ∉ rows2 :=
  (list_expenses_spec sampleDb 1 2 7 emptyExpenseBody).2.2 (by decide)

/-- C10: expense update never validates and never partially updates: for a
row matching the caller and id, any body yields 200 and the row with all
three of category, amount and description replaced by the body's values, so
omitted fields overwrite with NULL; rows not matching both id and caller
are left in the store untouched. -/
theorem update_expense_overwrites (db : DB) (uid id : Nat) (b : ExpenseBody)
    (r : TxRow) (rest : List TxRow)
    (hfil : db.transactions.filter (txKeyMatch id uid) = r :: rest) :
    (updateExpense db uid id b).1 = ⟨200, .txRow (txOverwrite b r)⟩ ∧
    (txOverwrite b r).category = b.category ∧
    (txOverwrite b r).amount = b.amount ∧
    (txOverwrite b r).description = b.description ∧
    (updateExpense db uid id ⟨none, none, none⟩).1
      = ⟨200, .txRow (txOverwrite ⟨none, none, none⟩ r)⟩ ∧
    (∀ x ∈ db.transactions, ¬(x.transaction_id = id ∧ x.user_id = uid) →
      x ∈ (updateExpense db uid id b).2.transactions) := by
  refine ⟨?_, rfl, rfl, rfl, ?_, ?_⟩
  · simp only [updateExpense, hfil, List.map_cons]
  · simp only [updateExpense, hfil, List.map_cons]
  · intro x hx hnm
    rw [updateExpense_snd]
    exact List.mem_map.mpr ⟨x, hx, by simp [txKeyMatch_false hnm]⟩

/-- Witness for C10: caller 1 updates row 1 with a partial body and with an
empty body; the row is returned with the body's fields verbatim. -/
theorem update_expense_overwrites_witness :
    (updateExpense sampleDb 1 1 ⟨some "travel", some 99, none⟩).1
      = ⟨200, RespBody.txRow (txOverwrite ⟨some "travel", some 99, none⟩ sampleTx)⟩ ∧
    (updateExpense sampleDb 1 1 ⟨none, none, none⟩).1
      = ⟨200, RespBody.txRow (txOverwrite ⟨none, none, none⟩ sampleTx)⟩ := by
  have h := update_expense_overwrites sampleDb 1 1 ⟨some "travel", some 99, none⟩
    sampleTx [] (by decide)
  exact ⟨h.1, h.2.2.2.2.1⟩
